import Mathlib

/-!
Verification of the Steam monitor plugin (src/main.py, src/steam_client.py).

The core state machine `_process_rule_update`, the history helper
`_add_event_to_history`, the scheduler tier computation
`_calculate_individual_next_sleep_time`, the notification filter gate of
`_notify_user`, the pass structure of `_friend_list_monitor_task`, and the
identity resolver `resolve_steam_url_to_id64` are embedded as pure Lean
functions. Timestamps are integers (Python `int(time.time())`); the calendar
day is the string `time.strftime("%Y-%m-%d")`; a Python value that may be
`None` is an `Option`; Python truthiness of an optional string is `truthy`.
-/

namespace SteamMonitor

/-- Python truthiness of a `str | None` value: `None` and `""` are falsy. -/
def truthy : Option String → Bool
  | none => false
  | some s => s ≠ ""

/-- Python `x or d` for `x : str | None` and a string default `d`:
yields the string in `x` when it is truthy, otherwise `d`. -/
def orDefault (o : Option String) (d : String) : String :=
  if truthy o then o.getD "" else d

/-- One element of a rule's `event_history` list
(built in `_add_event_to_history`, main.py:377-382). -/
structure HistEvent where
  timestamp : Int
  type : String
  game : String
  duration : Int
deriving DecidableEq, Repr

/-- The mutable fields of one monitoring rule dict that the state machine
reads or writes (see rule creation in `add_rule`, main.py:493-502, and the
defaults in `_load_monitoring_rules`, main.py:84-89). -/
structure Rule where
  target_steam_display_name : String
  target_steam_avatar_url : Option String
  game_name_to_monitor : Option String
  last_known_game_name : Option String
  last_state_change_timestamp : Int
  event_history : List HistEvent
  total_playtime_today : Int
  last_reset_day : String
  current_game_start_timestamp : Int
deriving DecidableEq, Repr

/-- The observation dict produced by the status provider
(`get_single_player_status` / `extract_friends_game_status_from_html`,
steam_client.py:128, 153): `{"name": ..., "game": ..., "avatar_url": ...}`,
each field possibly `None`. -/
structure PlayerInfo where
  name : Option String
  game : Option String
  avatar_url : Option String
deriving DecidableEq, Repr

/-- The arguments of one call to `_notify_user` issued by
`_process_rule_update` (main.py:259): the outward notification event. -/
structure NotifyCall where
  event_type : String
  game_name : String
  duration_seconds : Int
  avatar_url : Option String
deriving DecidableEq, Repr

/-- `_add_event_to_history` (main.py:374-384): insert the new event at the
front and keep at most 10 entries. -/
def add_event_to_history (rule : Rule) (event_type game_name : String)
    (duration now : Int) : Rule :=
  { rule with event_history :=
      ({ timestamp := now, type := event_type, game := game_name,
         duration := duration } :: rule.event_history).take 10 }

/-- The daily-reset prelude of `_process_rule_update` (main.py:212-215):
when `last_reset_day` differs from today, zero the accumulator and stamp
today. -/
def daily_reset (rule : Rule) (today : String) : Rule :=
  if rule.last_reset_day ≠ today then
    { rule with total_playtime_today := 0, last_reset_day := today }
  else rule

/-- The `current_game_name != old_game_name` branch body of
`_process_rule_update` (main.py:224-254): returns the rule after the branch
together with the values of the `event_type` and `duration_seconds`
variables. -/
def transition_branch (r1 : Rule) (current_game_name old_game_name :
    Option String) (now : Int) : Rule × Option String × Int :=
  if current_game_name ≠ old_game_name then
    if !truthy current_game_name && truthy old_game_name then
      -- stop (main.py:229-235)
      let start_time := r1.current_game_start_timestamp
      let duration_seconds := if start_time > 0 then now - start_time else 0
      let r2 := if start_time > 0 then
          { r1 with total_playtime_today :=
              r1.total_playtime_today + duration_seconds }
        else r1
      ({ r2 with current_game_start_timestamp := 0 }, some "stop",
       duration_seconds)
    else if truthy current_game_name && !truthy old_game_name then
      -- start (main.py:238-240)
      ({ r1 with current_game_start_timestamp := now }, some "start", 0)
    else if truthy current_game_name && truthy old_game_name then
      -- switch (main.py:243-254): stop the old game, then start the new one
      let start_time_old := r1.current_game_start_timestamp
      let r2 := if start_time_old > 0 then
          let duration_seconds_old := now - start_time_old
          add_event_to_history
            { r1 with total_playtime_today :=
                r1.total_playtime_today + duration_seconds_old }
            "stop" (orDefault old_game_name "") duration_seconds_old now
        else r1
      ({ r2 with current_game_start_timestamp := now }, some "start", 0)
    else
      -- both falsy but unequal (e.g. None vs ""): no event_type is set
      (r1, none, 0)
  else (r1, none, 0)

/-- `_process_rule_update` (main.py:209-266) as a pure transition function.
`now` is `int(time.time())` and `today` is `time.strftime("%Y-%m-%d")` at the
moment of the call. Returns the updated rule together with the list of
`_notify_user` calls issued (empty or a single call). -/
def process_rule_update (rule0 : Rule) (current_info : Option PlayerInfo)
    (now : Int) (today : String) : Rule × List NotifyCall :=
  let r1 := daily_reset rule0 today
  match current_info with
  | none => (r1, [])  -- main.py:217-218
  | some info =>
    let player_name := orDefault info.name r1.target_steam_display_name
    let current_game_name := info.game
    let old_game_name := r1.last_known_game_name
    let step := transition_branch r1 current_game_name old_game_name now
    -- `if event_type:` (main.py:256-259)
    let r4 := match step.2.1 with
      | some et =>
          add_event_to_history step.1 et
            (orDefault old_game_name (orDefault current_game_name ""))
            step.2.2 now
      | none => step.1
    let calls : List NotifyCall := match step.2.1 with
      | some et =>
          [{ event_type := et,
             game_name := orDefault current_game_name (orDefault old_game_name ""),
             duration_seconds := step.2.2,
             avatar_url := info.avatar_url }]
      | none => []
    -- `rule.update({...})` (main.py:261-266)
    ({ r4 with
        target_steam_display_name := player_name,
        target_steam_avatar_url := info.avatar_url,
        last_known_game_name := current_game_name,
        last_state_change_timestamp :=
          if current_game_name ≠ old_game_name then now
          else r4.last_state_change_timestamp },
     calls)

/-- `_calculate_individual_next_sleep_time` (main.py:197-207). The three
interval arguments are the configured tiers
`individual_ingame_interval_seconds` (shortest, default 60),
`individual_online_interval_seconds` (medium, default 300) and
`individual_offline_interval_seconds` (longest, default 900). -/
def calculate_individual_next_sleep_time (ind_ingame_interval ind_online_interval
    ind_offline_interval : Int) (individual_rules : List Rule) : Int :=
  if individual_rules.any (fun r => truthy r.last_known_game_name) then
    ind_ingame_interval
  else if individual_rules.any (fun r => truthy r.target_steam_avatar_url) then
    ind_online_interval
  else
    ind_offline_interval

/-- Python `str.lower()` for the ASCII letters that occur in the claims
(Lean's `Char.toLower` lowers exactly the ASCII range). -/
def pyLower (s : String) : String := String.mk (s.data.map Char.toLower)

/-- Whether the first list is an initial segment of the second. -/
def charsLeadWith : List Char → List Char → Bool
  | [], _ => true
  | _ :: _, [] => false
  | c :: cs, d :: ds => c == d && charsLeadWith cs ds

/-- Whether `needle` occurs contiguously inside the second list. -/
def charsContain (needle : List Char) : List Char → Bool
  | [] => charsLeadWith needle []
  | d :: ds => charsLeadWith needle (d :: ds) || charsContain needle ds

/-- Python substring containment `needle in hay` on strings. -/
def pyIn (needle hay : String) : Bool := charsContain needle.data hay.data

/-- The filter gate at the top of `_notify_user` (main.py:268-274):
`if game_to_monitor and game_to_monitor.lower() not in game_name.lower():
return` — when a game filter is set and is not a case-insensitive substring
of the event's game name, the function returns immediately (`none` here:
suppressed, nothing dispatched, no side effect); otherwise it proceeds to
compose and dispatch the notification (`some ()`). -/
def notify_user_filter (rule : Rule) (game_name : String) : Option Unit :=
  let game_to_monitor := rule.game_name_to_monitor
  if truthy game_to_monitor &&
      !(pyIn (pyLower (orDefault game_to_monitor "")) (pyLower game_name)) then
    none
  else
    some ()

/-- The names bound by the import statements of steam_client.py (lines 1-5):
`aiohttp`, `asyncio`, `BeautifulSoup`, `urlparse`, `logger`. The module never
imports `time`, although line 201 evaluates `int(time.time())`. -/
def steam_client_imported_names : List String :=
  ["aiohttp", "asyncio", "BeautifulSoup", "urlparse", "logger"]

/-- A Python runtime error raised by embedded steam_client.py code. -/
inductive PyRuntimeError where
  | nameError (name : String)
deriving DecidableEq, Repr

/-- One value of the `steam_id_cache` dict: `{"id64", "name", "avatar_url",
"timestamp"}` as written at steam_client.py:197-202. -/
structure CacheEntry where
  id64 : String
  name : String
  avatar_url : Option String
  timestamp : Int
deriving DecidableEq, Repr

/-- The fields that `resolve_steam_url_to_id64` extracts from a fetched
profile page: the `steamID64` meta tag (steam_client.py:189-191), the player
name (`extract_player_name_from_html`) and the avatar URL
(`extract_avatar_from_profile_html`). The page fetch and HTML parsing are
external collaborators; `fetch profile_url = none` models
`fetch_html` not returning a string (error/403/304). -/
structure ProfilePage where
  steamID64 : Option String
  player_name : Option String
  avatar_url : Option String
deriving DecidableEq, Repr

def STEAM_PROFILE_BASE_URL : String := "https://steamcommunity.com/profiles/"

def STEAM_CUSTOM_ID_BASE_URL : String := "https://steamcommunity.com/id/"

/-- The `(netloc, path)` components of `urlparse` for inputs of the shapes
the resolver distinguishes: a `scheme://host/path` URL parses into its host
and `/`-prefixed path; an input without `://` has empty netloc (it is all
path, as in CPython's urlparse for inputs like a bare ID). -/
def urlparse_netloc_path (s : String) : String × String :=
  match s.splitOn "://" with
  | [] => ("", s)
  | [_] => ("", s)
  | _ :: rest =>
    let r := String.intercalate "://" rest
    match r.splitOn "/" with
    | [] => (r, "")
    | [host] => (host, "")
    | host :: pathParts => (host, "/" ++ String.intercalate "/" pathParts)

/-- Python `s.rstrip("/")`. -/
def rstripSlash (s : String) : String :=
  String.mk ((s.data.reverse.dropWhile fun c => c = '/').reverse)

/-- Python `s.isdigit()` restricted to ASCII digits (`""` is not a digit
string). -/
def pyIsDigit (s : String) : Bool := s ≠ "" && s.data.all Char.isDigit

/-- The ID64 shape test used twice in `resolve_steam_url_to_id64`
(steam_client.py:166, 176): all digits, length 17, starting with `7656`. -/
def is_id64_shaped (s : String) : Bool :=
  pyIsDigit s && s.length == 17 && s.startsWith "7656"

/-- Input normalization of `resolve_steam_url_to_id64`
(steam_client.py:163-169). -/
def normalize_steam_input (steam_url_or_id : String) : String :=
  let parsed := urlparse_netloc_path steam_url_or_id
  if parsed.1 = "steamcommunity.com" &&
      (parsed.2.startsWith "/id/" || parsed.2.startsWith "/profiles/") then
    rstripSlash steam_url_or_id
  else if is_id64_shaped steam_url_or_id then
    steam_url_or_id
  else
    STEAM_CUSTOM_ID_BASE_URL ++ steam_url_or_id

/-- `resolve_steam_url_to_id64` (steam_client.py:158-207). The identity
cache dict is an association list; `fetch` abstracts `fetch_html` plus the
HTML field extraction. On a cache hit (no forced refresh) the cached triple
is returned; on a failed fetch or a page without a `steamID64` meta tag the
all-`none` triple is returned. When a fresh ID64 IS resolved, line 201
evaluates `int(time.time())` while building the new cache entry — but the
name `time` is not bound in the module (`steam_client_imported_names` has no
`"time"`), so CPython raises `NameError: name 'time' is not defined` before
the cache is written; the embedding returns that error on this path and the
(unreachable in the source) cache-write branch is kept under the membership
test so that the translation stays line-faithful. -/
def resolve_steam_url_to_id64 (steam_url_or_id : String)
    (steam_id_cache : List (String × CacheEntry)) (force_re_resolve : Bool)
    (fetch : String → Option ProfilePage) (now : Int) :
    Except PyRuntimeError
      ((Option String × Option String × Option String) ×
        List (String × CacheEntry)) :=
  let normalized_input := normalize_steam_input steam_url_or_id
  match if force_re_resolve then none
        else steam_id_cache.lookup normalized_input with
  | some cached =>
      .ok ((some cached.id64, some cached.name, cached.avatar_url),
           steam_id_cache)
  | none =>
    let profile_url := if is_id64_shaped normalized_input then
        STEAM_PROFILE_BASE_URL ++ normalized_input ++ "/"
      else normalized_input
    match fetch profile_url with
    | none => .ok ((none, none, none), steam_id_cache)
    | some page =>
      match page.steamID64 with
      | some resolved_id64 =>
        if "time" ∈ steam_client_imported_names then
          let entry : CacheEntry :=
            { id64 := resolved_id64,
              name := orDefault page.player_name "未知玩家",
              avatar_url := page.avatar_url,
              timestamp := now }
          .ok ((some resolved_id64, page.player_name, page.avatar_url),
               (normalized_input, entry) ::
                 steam_id_cache.filter (fun kv => kv.1 ≠ normalized_input))
        else
          .error (.nameError "time")
      | none => .ok ((none, none, none), steam_id_cache)

/-- What one pass of `_friend_list_monitor_task` does after building the
per-rule tasks (main.py:125-127). Each element of `outcomes` is the
termination outcome of one rule's `_process_rule_update` coroutine:
`.ok ()` for normal return, `.error e` for a raised exception `e`. -/
structure FriendPassOutcome where
  rules_processed : Nat
  saved : Bool
deriving DecidableEq, Repr

/-- `await asyncio.gather(*tasks)` with the default
`return_exceptions=False` (main.py:126): every task is run (siblings are not
cancelled when one fails), and if any task raised, the first exception
propagates to the awaiting coroutine. -/
def gather_default (outcomes : List (Except String Unit)) :
    Except String Unit :=
  match outcomes.findSome?
      (fun o => match o with | .error e => some e | .ok _ => none) with
  | some e => .error e
  | none => .ok ()

/-- The tail of one friend-list pass (main.py:125-127): all per-rule tasks
are created up front and run under the gather; `_save_monitoring_rules()`
on line 127 executes only if the gather returns normally (an exception
propagates past it to the pass-level handler at main.py:130-131). -/
def friend_list_pass (outcomes : List (Except String Unit)) :
    FriendPassOutcome :=
  { rules_processed := outcomes.length,
    saved := match gather_default outcomes with
      | .ok _ => true
      | .error _ => false }

/-! ## Concrete fixtures -/

/-- A rule as created by `add_rule` (main.py:493-502) with neutral fields,
used as the base of the concrete test rules below. -/
def baseRule : Rule :=
  { target_steam_display_name := "Player", target_steam_avatar_url := none,
    game_name_to_monitor := none, last_known_game_name := none,
    last_state_change_timestamp := 0, event_history := [],
    total_playtime_today := 0, last_reset_day := "2026-10-12",
    current_game_start_timestamp := 0 }

/-- A rule whose `last_reset_day` lies before the processing day. -/
def rollRule : Rule :=
  { baseRule with last_reset_day := "2026-10-11", total_playtime_today := 77 }

/-- A rule currently playing game `A` since timestamp 100. -/
def switchRule : Rule :=
  { baseRule with
    last_known_game_name := some "A"
    current_game_start_timestamp := 100 }

/-- A rule currently playing game `G` since timestamp 100. -/
def stopRule : Rule :=
  { baseRule with
    last_known_game_name := some "G"
    current_game_start_timestamp := 100 }

/-- A rule with the game filter `Chess`. -/
def chessRule : Rule := { baseRule with game_name_to_monitor := some "Chess" }

/-- An observation reporting no name, no game and no avatar. -/
def emptyObs : PlayerInfo := { name := none, game := none, avatar_url := none }

/-- The history entry built from one argument quadruple
`(event_type, game_name, duration, now)` of `_add_event_to_history`. -/
def histArgsToEvent (e : String × String × Int × Int) : HistEvent :=
  { timestamp := e.2.2.2, type := e.1, game := e.2.1, duration := e.2.2.1 }

/-- Eleven sequential transition events. -/
def elevenEvents : List (String × String × Int × Int) :=
  [("start", "g1", 0, 1), ("stop", "g1", 1, 2), ("start", "g2", 0, 3),
   ("stop", "g2", 1, 4), ("start", "g3", 0, 5), ("stop", "g3", 1, 6),
   ("start", "g4", 0, 7), ("stop", "g4", 1, 8), ("start", "g5", 0, 9),
   ("stop", "g5", 1, 10), ("start", "g6", 0, 11)]

/-! ## Helper lemmas -/

lemma orDefault_self (o : Option String) (d : String) :
    orDefault o (orDefault o d) = orDefault o d := by
  by_cases h : truthy o <;> simp [orDefault, h]

lemma daily_reset_last_reset_day (r : Rule) (today : String) :
    (daily_reset r today).last_reset_day = today := by
  by_cases h : r.last_reset_day = today <;> simp [daily_reset, h]

lemma daily_reset_display (r : Rule) (today : String) :
    (daily_reset r today).target_steam_display_name =
      r.target_steam_display_name := by
  by_cases h : r.last_reset_day = today <;> simp [daily_reset, h]

lemma transition_branch_last_reset_day (r1 : Rule) (cg og : Option String)
    (now : Int) :
    (transition_branch r1 cg og now).1.last_reset_day = r1.last_reset_day := by
  unfold transition_branch
  split_ifs <;> simp [add_event_to_history] <;> split <;> rfl

lemma process_sets_today (r : Rule) (obs : Option PlayerInfo) (now : Int)
    (today : String) :
    (process_rule_update r obs now today).1.last_reset_day = today := by
  cases obs with
  | none => simp [process_rule_update, daily_reset_last_reset_day]
  | some info =>
    simp only [process_rule_update]
    split <;>
      simp [add_event_to_history, transition_branch_last_reset_day,
        daily_reset_last_reset_day]

lemma process_display_field (r : Rule) (info : PlayerInfo) (now : Int)
    (today : String) :
    (process_rule_update r (some info) now today).1.target_steam_display_name
      = orDefault info.name r.target_steam_display_name := by
  simp [process_rule_update, daily_reset_display]

lemma process_avatar_field (r : Rule) (info : PlayerInfo) (now : Int)
    (today : String) :
    (process_rule_update r (some info) now today).1.target_steam_avatar_url
      = info.avatar_url := by
  simp [process_rule_update]

lemma process_last_known_field (r : Rule) (info : PlayerInfo) (now : Int)
    (today : String) :
    (process_rule_update r (some info) now today).1.last_known_game_name
      = info.game := by
  simp [process_rule_update]

lemma process_noop_of_unchanged (r : Rule) (info : PlayerInfo) (now : Int)
    (today : String) (h1 : r.last_reset_day = today)
    (h2 : r.last_known_game_name = info.game)
    (h3 : orDefault info.name r.target_steam_display_name =
      r.target_steam_display_name)
    (h4 : r.target_steam_avatar_url = info.avatar_url) :
    process_rule_update r (some info) now today = (r, []) := by
  obtain ⟨d, av, gm, lk, ls, eh, tp, lr, cg⟩ := r
  obtain ⟨nm, og, oa⟩ := info
  simp only at h1 h2 h3 h4
  subst h1 h2 h4
  simp [process_rule_update, daily_reset, transition_branch, h3]

lemma take_ten_append_take_ten {α : Type} (A l : List α) :
    (A ++ l.take 10).take 10 = (A ++ l).take 10 := by
  rw [List.take_append_eq_append_take, List.take_append_eq_append_take,
    List.take_take, Nat.min_eq_left (Nat.sub_le _ _)]

lemma event_history_foldl (es : List (String × String × Int × Int)) (r : Rule)
    (h : r.event_history.length ≤ 10) :
    (es.foldl
        (fun acc e => add_event_to_history acc e.1 e.2.1 e.2.2.1 e.2.2.2)
        r).event_history =
      ((es.map histArgsToEvent).reverse ++ r.event_history).take 10 := by
  induction es generalizing r with
  | nil => simpa using (List.take_of_length_le h).symm
  | cons e es ih =>
    rw [List.foldl_cons]
    rw [ih (add_event_to_history r e.1 e.2.1 e.2.2.1 e.2.2.2)
      (by simp [add_event_to_history])]
    simp only [add_event_to_history, List.map_cons, List.reverse_cons,
      List.append_assoc, List.singleton_append]
    exact take_ten_append_take_ten _ _

lemma head?_take_ten {α : Type} (x : α) (l : List α) :
    ((x :: l).take 10).head? = some x := rfl

/-! ## Theorems -/

/-- C1: on a switch (stored activity `A`, observed activity `B`, session open
since 100, processed at 160) the code appends exactly two history entries and
issues exactly one notification, a start of `B` — but the second (start)
history entry records the OLD game name `A` (main.py:257 passes
`old_game_name or current_game_name` to `_add_event_to_history`), not the new
name `B` that the claim and the notification call (main.py:259) use. This
theorem evaluates the embedded code at that failing input. -/
theorem switch_start_entry_uses_old_name :
    process_rule_update switchRule
      (some { name := some "Player", game := some "B", avatar_url := some "av" })
      160 "2026-10-12" =
    ({ baseRule with
        target_steam_avatar_url := some "av",
        last_known_game_name := some "B",
        last_state_change_timestamp := 160,
        event_history :=
          [{ timestamp := 160, type := "start", game := "A", duration := 0 },
           { timestamp := 160, type := "stop", game := "A", duration := 60 }],
        total_playtime_today := 60,
        current_game_start_timestamp := 160 },
     [{ event_type := "start", game_name := "B", duration_seconds := 0,
        avatar_url := some "av" }]) := by
  decide

/-- C2 counterexample: with `activityStartedAt = 100` and a stop observation
processed at `T1 = 50`, the accumulator becomes `-50`: the code adds
`T1 - T0` without any clamping (main.py:233-234), so the claimed clamped
increase (`max (T1-T0) 0 = 0`, leaving the accumulator at `0`) is wrong. -/
theorem stop_duration_not_clamped :
    (process_rule_update stopRule (some emptyObs) 50
        "2026-10-12").1.total_playtime_today = -50 ∧
    ¬ ((process_rule_update stopRule (some emptyObs) 50
        "2026-10-12").1.total_playtime_today =
          stopRule.total_playtime_today + max ((50 : Int) - 100) 0) := by
  decide

/-- C6: resolving an identifier that is not in the cache and whose profile
page yields a valid ID64 does NOT return the resolved triple: steam_client.py
line 201 evaluates `int(time.time())` to build the cache entry, but the
module never imports `time`, so the call raises `NameError: name 'time' is
not defined` before the triple is returned or the cache entry is written.
This theorem evaluates the embedded resolver at such a failing input. -/
theorem resolve_raises_name_error_on_fresh_success :
    resolve_steam_url_to_id64 "76561197960287930" [] false
      (fun _ => some { steamID64 := some "76561197960287930",
                       player_name := some "Alice",
                       avatar_url := some "https://a/avatar_full.jpg" }) 1000
      = .error (.nameError "time") := by
  rfl

/-- C9 counterexample: in a friend-list pass over two rules where the second
rule's `_process_rule_update` task raises, both tasks run (gather does not
cancel siblings), but `_save_monitoring_rules()` (main.py:127) is skipped
because the exception propagates out of `asyncio.gather` (main.py:126) —
contradicting the claim that the pass still persists the rule collection at
its end. -/
theorem pass_save_skipped_on_rule_error :
    (friend_list_pass [.ok (), .error "KeyError"]).rules_processed = 2 ∧
    (friend_list_pass [.ok (), .error "KeyError"]).saved = false := by
  decide

/-- C9 (amended): an error raised in one rule's task does not prevent the
sibling tasks of the same pass from running, but the pass persists the rule
collection only when no per-rule task raised; if any task raises, the first
exception propagates past the gather and the end-of-pass save is skipped
(the pass-level handler catches it and the loop continues). -/
theorem pass_isolation_and_save_condition
    (outcomes : List (Except String Unit)) :
    (friend_list_pass outcomes).rules_processed = outcomes.length ∧
    ((friend_list_pass outcomes).saved = true ↔
      ∀ o ∈ outcomes, o = .ok ()) := by
  refine ⟨rfl, ?_⟩
  simp only [friend_list_pass, gather_default]
  cases hf : outcomes.findSome?
      (fun o => match o with | .error e => some e | .ok _ => none) with
  | none =>
    simp only [List.findSome?_eq_none_iff] at hf
    simp only [true_iff]
    intro o ho
    have h1 := hf o ho
    cases o with
    | ok u => cases u; rfl
    | error e => simp at h1
  | some e =>
    refine iff_of_false (by simp) ?_
    intro hall
    obtain ⟨o, ho, heq⟩ := List.exists_of_findSome?_eq_some hf
    have hok := hall o ho
    subst hok
    simp at heq

/-- C4: when `last_reset_day` differs from the current day,
`_process_rule_update` zeroes the accumulator and stamps today first, before
any other mutation — with an absent observation nothing else is mutated and
no notification is issued, and with any observation the result is the same
as processing the already-rolled-over rule. -/
theorem day_rollover_resets (r : Rule) (now : Int) (today : String)
    (h : r.last_reset_day ≠ today) :
    process_rule_update r none now today =
      ({ r with total_playtime_today := 0, last_reset_day := today }, []) ∧
    ∀ obs, process_rule_update r obs now today =
      process_rule_update
        { r with total_playtime_today := 0, last_reset_day := today }
        obs now today := by
  constructor
  · simp [process_rule_update, daily_reset, h]
  · intro obs
    cases obs with
    | none => simp [process_rule_update, daily_reset, h]
    | some info => simp [process_rule_update, daily_reset, h]

/-- C4 witness: the rollover theorem applied to a concrete stale rule
(last reset 2026-10-11, 77 accumulated seconds) processed on 2026-10-12. -/
theorem day_rollover_resets_witness :
    process_rule_update rollRule none 50 "2026-10-12" =
      ({ rollRule with
         total_playtime_today := 0
         last_reset_day := "2026-10-12" }, []) ∧
    process_rule_update rollRule (some emptyObs) 50 "2026-10-12" =
      process_rule_update
        { rollRule with
          total_playtime_today := 0
          last_reset_day := "2026-10-12" }
        (some emptyObs) 50 "2026-10-12" :=
  ⟨(day_rollover_resets rollRule 50 "2026-10-12" (by decide)).1,
   (day_rollover_resets rollRule 50 "2026-10-12" (by decide)).2 (some emptyObs)⟩

/-- C5: the event history stays bounded: starting from a history of length
at most 10, any sequence of `_add_event_to_history` appends leaves a history
of length at most 10 that consists of exactly the most recent entries,
newest first. -/
theorem event_history_bound (es : List (String × String × Int × Int))
    (r : Rule) (h : r.event_history.length ≤ 10) :
    (es.foldl
        (fun acc e => add_event_to_history acc e.1 e.2.1 e.2.2.1 e.2.2.2)
        r).event_history.length ≤ 10 ∧
    (es.foldl
        (fun acc e => add_event_to_history acc e.1 e.2.1 e.2.2.1 e.2.2.2)
        r).event_history =
      ((es.map histArgsToEvent).reverse ++ r.event_history).take 10 := by
  have hf := event_history_foldl es r h
  refine ⟨?_, hf⟩
  rw [hf]
  simp [List.length_take]

/-- C5 witness: the history-bound theorem applied to eleven sequential
transitions on a rule with an empty history. -/
theorem event_history_bound_witness :
    (elevenEvents.foldl
        (fun acc e => add_event_to_history acc e.1 e.2.1 e.2.2.1 e.2.2.2)
        baseRule).event_history.length ≤ 10 ∧
    (elevenEvents.foldl
        (fun acc e => add_event_to_history acc e.1 e.2.1 e.2.2.1 e.2.2.2)
        baseRule).event_history =
      ((elevenEvents.map histArgsToEvent).reverse ++
        baseRule.event_history).take 10 :=
  event_history_bound elevenEvents baseRule (by decide)

/-- C7: for a non-empty list of individually monitored rules, the computed
next sleep duration is the in-game tier when some rule shows a current game,
otherwise the online tier when some rule shows a non-empty avatar URL,
otherwise the offline tier (main.py:197-207; the configured defaults order
these as shortest, medium, longest). -/
theorem individual_next_sleep_tiers (ig onl off : Int) (rules : List Rule)
    (hne : rules ≠ []) :
    ((rules.any fun r => truthy r.last_known_game_name) = true →
      calculate_individual_next_sleep_time ig onl off rules = ig) ∧
    ((rules.any fun r => truthy r.last_known_game_name) = false →
      (rules.any fun r => truthy r.target_steam_avatar_url) = true →
      calculate_individual_next_sleep_time ig onl off rules = onl) ∧
    ((rules.any fun r => truthy r.last_known_game_name) = false →
      (rules.any fun r => truthy r.target_steam_avatar_url) = false →
      calculate_individual_next_sleep_time ig onl off rules = off) := by
  refine ⟨fun h1 => ?_, fun h1 h2 => ?_, fun h1 h2 => ?_⟩
  · simp [calculate_individual_next_sleep_time, h1]
  · simp [calculate_individual_next_sleep_time, h1, h2]
  · simp [calculate_individual_next_sleep_time, h1, h2]

/-- C7 witness: with one rule in game `A` the computed sleep equals the
in-game tier 60. -/
theorem individual_next_sleep_tiers_witness :
    calculate_individual_next_sleep_time 60 300 900 [switchRule] = 60 :=
  (individual_next_sleep_tiers 60 300 900 [switchRule] (by decide)).1
    (by decide)

/-- C8: with a non-empty game filter set on the rule, `_notify_user`
proceeds past the filter gate (and so dispatches) exactly when the filter is
a case-insensitive substring of the event's game name; otherwise it returns
immediately with no side effect. -/
theorem notify_filter_iff (rule : Rule) (game_name f : String)
    (hf : rule.game_name_to_monitor = some f) (hne : f ≠ "") :
    (notify_user_filter rule game_name).isSome =
      pyIn (pyLower f) (pyLower game_name) := by
  cases hp : pyIn (pyLower f) (pyLower game_name) <;>
    simp [notify_user_filter, hf, truthy, orDefault, hne, hp]

/-- C8 witness: filter `Chess` does not suppress activity `Speed Chess` but
suppresses activity `Go`. -/
theorem notify_filter_iff_witness :
    (notify_user_filter chessRule "Speed Chess").isSome = true ∧
    (notify_user_filter chessRule "Go").isSome = false := by
  constructor
  · rw [notify_filter_iff chessRule "Speed Chess" "Chess" rfl (by decide)]
    decide
  · rw [notify_filter_iff chessRule "Go" "Chess" rfl (by decide)]
    decide

/-- C10: when the observation is present but its name field is absent, the
stored display name survives (`current_info.get("name") or rule[...]`,
main.py:220), while the stored avatar URL is overwritten with the
observation's avatar field even when that field is absent (main.py:263). -/
theorem display_kept_avatar_overwritten (r : Rule) (info : PlayerInfo)
    (now : Int) (today : String) (hname : info.name = none)
    (hdisp : r.target_steam_display_name ≠ "") :
    (process_rule_update r (some info) now today).1.target_steam_display_name
        = r.target_steam_display_name ∧
    (process_rule_update r (some info) now today).1.target_steam_avatar_url
        = info.avatar_url := by
  refine ⟨?_, ?_⟩
  · simp [process_rule_update, daily_reset_display, orDefault, truthy, hname]
  · simp [process_rule_update]

/-- C10 witness: the name/avatar theorem applied to a concrete rule with
stored name `Player` and an observation with absent name and avatar. -/
theorem display_kept_avatar_overwritten_witness :
    (process_rule_update stopRule (some emptyObs) 160
        "2026-10-12").1.target_steam_display_name =
      stopRule.target_steam_display_name ∧
    (process_rule_update stopRule (some emptyObs) 160
        "2026-10-12").1.target_steam_avatar_url = emptyObs.avatar_url :=
  display_kept_avatar_overwritten stopRule emptyObs 160 "2026-10-12" rfl
    (by decide)

/-- C2 (amended): with a stored activity `g` and a stop observation at time
`now` on the same calendar day, when `T0 = current_game_start_timestamp > 0`
the accumulator increases by exactly `now - T0` — truncated to whole seconds
but NOT clamped: a negative difference is added as-is (main.py:233-234
performs no clamping) — and the newest history entry is a stop entry for `g`
with that same duration; when `T0 = 0` the duration is 0 and the accumulator
is unchanged. -/
theorem stop_adds_exact_duration (r : Rule) (info : PlayerInfo) (now : Int)
    (today : String) (g : String) (hold : r.last_known_game_name = some g)
    (hg : g ≠ "") (hnew : truthy info.game = false)
    (hday : r.last_reset_day = today) :
    (0 < r.current_game_start_timestamp →
      (process_rule_update r (some info) now today).1.total_playtime_today =
        r.total_playtime_today + (now - r.current_game_start_timestamp) ∧
      (process_rule_update r (some info) now today).1.event_history.head? =
        some { timestamp := now, type := "stop", game := g,
               duration := now - r.current_game_start_timestamp }) ∧
    (r.current_game_start_timestamp = 0 →
      (process_rule_update r (some info) now today).1.total_playtime_today =
        r.total_playtime_today ∧
      (process_rule_update r (some info) now today).1.event_history.head? =
        some { timestamp := now, type := "stop", game := g,
               duration := 0 }) := by
  have hgg : ("" : String) ≠ g := fun h => hg h.symm
  have hcases : info.game = none ∨ info.game = some "" := by
    cases hgame : info.game with
    | none => exact Or.inl rfl
    | some s =>
      right
      rw [hgame] at hnew
      simp [truthy] at hnew
      rw [hnew]
  refine ⟨fun hT => ?_, fun hT => ?_⟩ <;>
    rcases hcases with hgame | hgame <;>
      simp [process_rule_update, daily_reset, transition_branch, hday, hold,
        hgame, truthy, orDefault, hg, hgg, hT, add_event_to_history,
        head?_take_ten]

/-- C2 witness: the duration theorem applied to the concrete rule playing
`G` since timestamp 100, stopped at 160 on the same day. -/
theorem stop_adds_exact_duration_witness :
    (0 < stopRule.current_game_start_timestamp →
      (process_rule_update stopRule (some emptyObs) 160
          "2026-10-12").1.total_playtime_today =
        stopRule.total_playtime_today +
          (160 - stopRule.current_game_start_timestamp) ∧
      (process_rule_update stopRule (some emptyObs) 160
          "2026-10-12").1.event_history.head? =
        some { timestamp := 160, type := "stop", game := "G",
               duration := 160 - stopRule.current_game_start_timestamp }) ∧
    (stopRule.current_game_start_timestamp = 0 →
      (process_rule_update stopRule (some emptyObs) 160
          "2026-10-12").1.total_playtime_today =
        stopRule.total_playtime_today ∧
      (process_rule_update stopRule (some emptyObs) 160
          "2026-10-12").1.event_history.head? =
        some { timestamp := 160, type := "stop", game := "G",
               duration := 0 }) :=
  stop_adds_exact_duration stopRule emptyObs 160 "2026-10-12" "G" rfl
    (by decide) (by decide) rfl

/-- C3: applying the same unchanged observation twice in a row is a no-op on
the second call: the second application returns the first application's rule
completely unchanged, appends no history entry, adds nothing to the playtime
accumulator, and issues no notification. -/
theorem process_rule_update_idempotent (r : Rule) (obs : Option PlayerInfo)
    (now1 now2 : Int) (today : String) :
    process_rule_update (process_rule_update r obs now1 today).1 obs now2
        today = ((process_rule_update r obs now1 today).1, []) := by
  cases obs with
  | none =>
    by_cases h : r.last_reset_day = today <;>
      simp [process_rule_update, daily_reset, h]
  | some info =>
    apply process_noop_of_unchanged
    · exact process_sets_today r (some info) now1 today
    · rw [process_last_known_field]
    · rw [process_display_field]
      exact orDefault_self _ _
    · rw [process_avatar_field]

end SteamMonitor
